import Mathlib

/-
Shallow embedding of the object runtime in `boa/src/object/mod.rs`:
the `ObjectKind` payload set, the `ObjectData` kind-to-table factories,
the `Object` record with its introspection predicates/accessors,
`set_prototype`, and the property-insertion helpers.

Payload types that live outside the excerpt (iterator states, collection
backing stores, …) are modelled as opaque tokens: no verified claim
depends on their internal structure, only on which `ObjectKind` variant
carries them.
-/

namespace Boa

/-- Modelled from the spec: a `JsObject` is a shared (Gc) handle to an
Object Record; equality between handles is reference identity (§4.3
"prototype equality is strict identity, not structural").  We model a
handle as an abstract address. -/
abbrev JsObject := Nat

/-- `pub type JsPrototype = Option<JsObject>;` -/
abbrev JsPrototype := Option JsObject

/-- Opaque token for the external `ArrayIterator` iteration-state payload. -/
abbrev ArrayIterator := Nat

/-- Opaque token for the external `ArrayBuffer` payload. -/
abbrev ArrayBuffer := Nat

/-- Opaque token for the external `OrderedMap<JsValue>` backing store. -/
abbrev OrderedMap := Nat

/-- Opaque token for the external `MapIterator` payload. -/
abbrev MapIterator := Nat

/-- Opaque token for the external `RegExp` payload. -/
abbrev RegExp := Nat

/-- Opaque token for the external `RegExpStringIterator` payload. -/
abbrev RegExpStringIterator := Nat

/-- Opaque token for the external `JsBigInt` payload. -/
abbrev JsBigInt := Nat

/-- Opaque token for the external `ForInIterator` payload. -/
abbrev ForInIterator := Nat

/-- Opaque token for the external `BoundFunction` payload. -/
abbrev BoundFunction := Nat

/-- Opaque token for the external `OrderedSet<JsValue>` backing store. -/
abbrev OrderedSet := Nat

/-- Opaque token for the external `SetIterator` payload. -/
abbrev SetIterator := Nat

/-- The wrapped text of a boxed `String` object (`JsString`). -/
abbrev JsString := String

/-- Opaque token for the external `StringIterator` payload. -/
abbrev StringIterator := Nat

/-- Opaque token for the `f64` payload of a boxed `Number`; no claim
depends on numeric semantics, only on the kind discrimination. -/
abbrev F64 := Nat

/-- Opaque token for the external `JsSymbol` payload. -/
abbrev JsSymbol := Nat

/-- Opaque token for the external `Date` payload. -/
abbrev Date := Nat

/-- Opaque token for the external `MappedArguments` payload. -/
abbrev MappedArguments := Nat

/-- Opaque token for the external `IntegerIndexed` (typed-array) payload. -/
abbrev IntegerIndexed := Nat

/-- Modelled from the spec: the external `Arguments` payload has a
`Mapped` variant carrying a `MappedArguments` value and an `Unmapped`
variant (§4.2: "an Unmapped Arguments object always gets the ordinary
table even though other Arguments variants are exotic"); `mod.rs`
matches on `Arguments::Unmapped` and `Arguments::Mapped(ref args)`. -/
inductive Arguments
  | mapped (args : MappedArguments)
  | unmapped
deriving DecidableEq

/-- Modelled from the spec: the external `Function` payload carries a
constructibility flag captured at construction (§4.2); `mod.rs` shows the
`Function::Native { constructor, .. }` and `Function::Closure
{ constructor, .. }` variants and calls `function.is_constructor()`. -/
inductive Function
  | native (id : Nat) (constructor : Bool)
  | closure (id : Nat) (constructor : Bool)
deriving DecidableEq

/-- `Function::is_constructor`: the constructibility flag of the payload. -/
def Function.is_constructor : Function → Bool
  | .native _ c => c
  | .closure _ c => c

/-- Modelled from the spec: a `Box<dyn NativeObject>` host payload is a
type-erased value whose concrete runtime type can be recovered exactly
(§4.5).  We model it as a runtime type tag `ty` (standing for Rust's
`TypeId`) together with the wrapped value `val`. -/
structure NativeObjectBox where
  ty : Nat
  val : Nat
deriving DecidableEq

/-- Modelled from the spec: the statically-defined operation tables of
the Operation Table Registry (§4.1).  Their bodies live in the
`internal_methods` module outside the excerpt; only their identities
matter for which table a factory binds. -/
inductive InternalObjectMethods
  | ordinary
  | array_exotic
  | string_exotic
  | arguments_exotic
  | bound_function_exotic
  | bound_constructor_exotic
  | function_nonconstructor
  | function_constructor
  | integer_indexed_exotic
deriving DecidableEq

def ORDINARY_INTERNAL_METHODS : InternalObjectMethods := .ordinary

def ARRAY_EXOTIC_INTERNAL_METHODS : InternalObjectMethods := .array_exotic

def STRING_EXOTIC_INTERNAL_METHODS : InternalObjectMethods := .string_exotic

def ARGUMENTS_EXOTIC_INTERNAL_METHODS : InternalObjectMethods := .arguments_exotic

def BOUND_FUNCTION_EXOTIC_INTERNAL_METHODS : InternalObjectMethods := .bound_function_exotic

def BOUND_CONSTRUCTOR_EXOTIC_INTERNAL_METHODS : InternalObjectMethods := .bound_constructor_exotic

def FUNCTION_INTERNAL_METHODS : InternalObjectMethods := .function_nonconstructor

def CONSTRUCTOR_INTERNAL_METHODS : InternalObjectMethods := .function_constructor

def INTEGER_INDEXED_EXOTIC_INTERNAL_METHODS : InternalObjectMethods := .integer_indexed_exotic

/-- `enum ObjectKind`: the closed set of payload variants. -/
inductive ObjectKind
  | array
  | arrayIterator (it : ArrayIterator)
  | arrayBuffer (buf : ArrayBuffer)
  | map (m : OrderedMap)
  | mapIterator (it : MapIterator)
  | regExp (r : RegExp)
  | regExpStringIterator (it : RegExpStringIterator)
  | bigInt (b : JsBigInt)
  | boolean (b : Bool)
  | forInIterator (it : ForInIterator)
  | function (f : Function)
  | boundFunction (f : BoundFunction)
  | set (s : OrderedSet)
  | setIterator (it : SetIterator)
  | string (s : JsString)
  | stringIterator (it : StringIterator)
  | number (n : F64)
  | symbol (s : JsSymbol)
  | error
  | ordinary
  | date (d : Date)
  | global
  | arguments (a : Arguments)
  | nativeObject (n : NativeObjectBox)
  | integerIndexed (i : IntegerIndexed)
deriving DecidableEq

/-- `struct ObjectData { kind, internal_methods }`. -/
structure ObjectData where
  kind : ObjectKind
  internal_methods : InternalObjectMethods
deriving DecidableEq

/-- `ObjectData::array`. -/
def ObjectData.array : ObjectData :=
  { kind := ObjectKind.array
    internal_methods := ARRAY_EXOTIC_INTERNAL_METHODS }

/-- `ObjectData::array_iterator`. -/
def ObjectData.array_iterator (array_iterator : ArrayIterator) : ObjectData :=
  { kind := ObjectKind.arrayIterator array_iterator
    internal_methods := ORDINARY_INTERNAL_METHODS }

/-- `ObjectData::array_buffer`. -/
def ObjectData.array_buffer (array_buffer : ArrayBuffer) : ObjectData :=
  { kind := ObjectKind.arrayBuffer array_buffer
    internal_methods := ORDINARY_INTERNAL_METHODS }

/-- `ObjectData::map`. -/
def ObjectData.map (map : OrderedMap) : ObjectData :=
  { kind := ObjectKind.map map
    internal_methods := ORDINARY_INTERNAL_METHODS }

/-- `ObjectData::map_iterator`. -/
def ObjectData.map_iterator (map_iterator : MapIterator) : ObjectData :=
  { kind := ObjectKind.mapIterator map_iterator
    internal_methods := ORDINARY_INTERNAL_METHODS }

/-- `ObjectData::reg_exp`. -/
def ObjectData.reg_exp (reg_exp : RegExp) : ObjectData :=
  { kind := ObjectKind.regExp reg_exp
    internal_methods := ORDINARY_INTERNAL_METHODS }

/-- `ObjectData::reg_exp_string_iterator`. -/
def ObjectData.reg_exp_string_iterator (it : RegExpStringIterator) : ObjectData :=
  { kind := ObjectKind.regExpStringIterator it
    internal_methods := ORDINARY_INTERNAL_METHODS }

/-- `ObjectData::big_int`. -/
def ObjectData.big_int (big_int : JsBigInt) : ObjectData :=
  { kind := ObjectKind.bigInt big_int
    internal_methods := ORDINARY_INTERNAL_METHODS }

/-- `ObjectData::boolean`. -/
def ObjectData.boolean (boolean : Bool) : ObjectData :=
  { kind := ObjectKind.boolean boolean
    internal_methods := ORDINARY_INTERNAL_METHODS }

/-- `ObjectData::for_in_iterator`. -/
def ObjectData.for_in_iterator (for_in_iterator : ForInIterator) : ObjectData :=
  { kind := ObjectKind.forInIterator for_in_iterator
    internal_methods := ORDINARY_INTERNAL_METHODS }

/-- `ObjectData::function`: the table depends on `function.is_constructor()`. -/
def ObjectData.function (function : Function) : ObjectData :=
  { internal_methods :=
      if function.is_constructor then CONSTRUCTOR_INTERNAL_METHODS
      else FUNCTION_INTERNAL_METHODS
    kind := ObjectKind.function function }

/-- `ObjectData::bound_function`: the table depends on the `constructor` flag. -/
def ObjectData.bound_function (bound_function : BoundFunction) (constructor : Bool) :
    ObjectData :=
  { kind := ObjectKind.boundFunction bound_function
    internal_methods :=
      if constructor then BOUND_CONSTRUCTOR_EXOTIC_INTERNAL_METHODS
      else BOUND_FUNCTION_EXOTIC_INTERNAL_METHODS }

/-- `ObjectData::set`. -/
def ObjectData.set (set : OrderedSet) : ObjectData :=
  { kind := ObjectKind.set set
    internal_methods := ORDINARY_INTERNAL_METHODS }

/-- `ObjectData::set_iterator`. -/
def ObjectData.set_iterator (set_iterator : SetIterator) : ObjectData :=
  { kind := ObjectKind.setIterator set_iterator
    internal_methods := ORDINARY_INTERNAL_METHODS }

/-- `ObjectData::string`. -/
def ObjectData.string (string : JsString) : ObjectData :=
  { kind := ObjectKind.string string
    internal_methods := STRING_EXOTIC_INTERNAL_METHODS }

/-- `ObjectData::string_iterator`. -/
def ObjectData.string_iterator (string_iterator : StringIterator) : ObjectData :=
  { kind := ObjectKind.stringIterator string_iterator
    internal_methods := ORDINARY_INTERNAL_METHODS }

/-- `ObjectData::number`. -/
def ObjectData.number (number : F64) : ObjectData :=
  { kind := ObjectKind.number number
    internal_methods := ORDINARY_INTERNAL_METHODS }

/-- `ObjectData::symbol`. -/
def ObjectData.symbol (symbol : JsSymbol) : ObjectData :=
  { kind := ObjectKind.symbol symbol
    internal_methods := ORDINARY_INTERNAL_METHODS }

/-- `ObjectData::error`. -/
def ObjectData.error : ObjectData :=
  { kind := ObjectKind.error
    internal_methods := ORDINARY_INTERNAL_METHODS }

/-- `ObjectData::ordinary`. -/
def ObjectData.ordinary : ObjectData :=
  { kind := ObjectKind.ordinary
    internal_methods := ORDINARY_INTERNAL_METHODS }

/-- `ObjectData::date`. -/
def ObjectData.date (date : Date) : ObjectData :=
  { kind := ObjectKind.date date
    internal_methods := ORDINARY_INTERNAL_METHODS }

/-- `ObjectData::global`. -/
def ObjectData.global : ObjectData :=
  { kind := ObjectKind.global
    internal_methods := ORDINARY_INTERNAL_METHODS }

/-- `ObjectData::arguments`: ordinary table for `Arguments::Unmapped`,
exotic arguments table otherwise. -/
def ObjectData.arguments (arguments : Arguments) : ObjectData :=
  { internal_methods :=
      if arguments = Arguments.unmapped then ORDINARY_INTERNAL_METHODS
      else ARGUMENTS_EXOTIC_INTERNAL_METHODS
    kind := ObjectKind.arguments arguments }

/-- `ObjectData::native_object`. -/
def ObjectData.native_object (native_object : NativeObjectBox) : ObjectData :=
  { kind := ObjectKind.nativeObject native_object
    internal_methods := ORDINARY_INTERNAL_METHODS }

/-- `ObjectData::integer_indexed`. -/
def ObjectData.integer_indexed (integer_indexed : IntegerIndexed) : ObjectData :=
  { kind := ObjectKind.integerIndexed integer_indexed
    internal_methods := INTEGER_INDEXED_EXOTIC_INTERNAL_METHODS }

/-- `impl Display for ObjectKind`: the stable human-readable label. -/
def ObjectKind.display : ObjectKind → String
  | .array => "Array"
  | .arrayIterator _ => "ArrayIterator"
  | .arrayBuffer _ => "ArrayBuffer"
  | .forInIterator _ => "ForInIterator"
  | .function _ => "Function"
  | .boundFunction _ => "BoundFunction"
  | .regExp _ => "RegExp"
  | .regExpStringIterator _ => "RegExpStringIterator"
  | .map _ => "Map"
  | .mapIterator _ => "MapIterator"
  | .set _ => "Set"
  | .setIterator _ => "SetIterator"
  | .string _ => "String"
  | .stringIterator _ => "StringIterator"
  | .symbol _ => "Symbol"
  | .error => "Error"
  | .ordinary => "Ordinary"
  | .boolean _ => "Boolean"
  | .number _ => "Number"
  | .bigInt _ => "BigInt"
  | .date _ => "Date"
  | .global => "Global"
  | .arguments _ => "Arguments"
  | .nativeObject _ => "NativeObject"
  | .integerIndexed _ => "TypedArray"

/-- Opaque token for the external `PropertyKey` type (string, index or
symbol); only decidable equality of keys matters here. -/
abbrev PropertyKey := Nat

/-- Opaque token for the external `PropertyDescriptor` type. -/
abbrev PropertyDescriptor := Nat

/-- Modelled from the spec: the key-ordered property storage collaborator
(`PropertyMap`, outside the excerpt), exposing insert/lookup over an
ordered key-to-descriptor mapping; `insert` overwrites and returns the
previously stored descriptor, if any. -/
structure PropertyMap where
  entries : List (PropertyKey × PropertyDescriptor)
deriving DecidableEq

/-- Lookup of the descriptor stored under a key, first match wins. -/
def getEntries (key : PropertyKey) :
    List (PropertyKey × PropertyDescriptor) → Option PropertyDescriptor
  | [] => none
  | e :: rest => if e.1 = key then some e.2 else getEntries key rest

/-- Modelled from the spec: store `property` under `key`, keeping the
position of an already-present key and appending a fresh key at the end;
also return the descriptor previously stored under `key`, if any. -/
def insertEntries (key : PropertyKey) (property : PropertyDescriptor) :
    List (PropertyKey × PropertyDescriptor) →
      List (PropertyKey × PropertyDescriptor) × Option PropertyDescriptor
  | [] => ([(key, property)], none)
  | e :: rest =>
    if e.1 = key then ((key, property) :: rest, some e.2)
    else
      let r := insertEntries key property rest
      (e :: r.1, r.2)

/-- Lookup of the descriptor stored under a key. -/
def PropertyMap.get (m : PropertyMap) (key : PropertyKey) : Option PropertyDescriptor :=
  getEntries key m.entries

/-- Modelled from the spec: `PropertyMap::insert` stores `property` under
`key` and returns the descriptor previously stored under `key`, if any. -/
def PropertyMap.insert (m : PropertyMap) (key : PropertyKey) (property : PropertyDescriptor) :
    PropertyMap × Option PropertyDescriptor :=
  let r := insertEntries key property m.entries
  (⟨r.1⟩, r.2)

/-- Modelled from the spec: `PropertyMap::default` is the empty mapping. -/
def PropertyMap.default : PropertyMap := ⟨[]⟩

/-- `struct Object { data, properties, prototype, extensible }`. -/
structure Object where
  data : ObjectData
  properties : PropertyMap
  prototype : JsPrototype
  extensible : Bool
deriving DecidableEq

/-- `impl Default for Object`: ordinary kind, default property map, no
prototype, extensible. -/
def Object.default : Object :=
  { data := ObjectData.ordinary
    properties := PropertyMap.default
    prototype := none
    extensible := true }

/-- `Object::kind`. -/
def Object.kind (self : Object) : ObjectKind := self.data.kind

/-- `Object::is_array`. -/
def Object.is_array (self : Object) : Bool :=
  match self.data with
  | ⟨.array, _⟩ => true
  | _ => false

/-- `Object::as_array`. -/
def Object.as_array (self : Object) : Option Unit :=
  match self.data with
  | ⟨.array, _⟩ => some ()
  | _ => none

/-- `Object::is_array_iterator`. -/
def Object.is_array_iterator (self : Object) : Bool :=
  match self.data with
  | ⟨.arrayIterator _, _⟩ => true
  | _ => false

/-- `Object::as_array_iterator`. -/
def Object.as_array_iterator (self : Object) : Option ArrayIterator :=
  match self.data with
  | ⟨.arrayIterator iter, _⟩ => some iter
  | _ => none

/-- `Object::is_array_buffer`. -/
def Object.is_array_buffer (self : Object) : Bool :=
  match self.data with
  | ⟨.arrayBuffer _, _⟩ => true
  | _ => false

/-- `Object::as_array_buffer`. -/
def Object.as_array_buffer (self : Object) : Option ArrayBuffer :=
  match self.data with
  | ⟨.arrayBuffer buffer, _⟩ => some buffer
  | _ => none

/-- `Object::as_array_buffer_mut` (read component of the mutable accessor). -/
def Object.as_array_buffer_mut (self : Object) : Option ArrayBuffer :=
  match self.data with
  | ⟨.arrayBuffer buffer, _⟩ => some buffer
  | _ => none

/-- `Object::as_array_iterator_mut` (read component of the mutable accessor). -/
def Object.as_array_iterator_mut (self : Object) : Option ArrayIterator :=
  match self.data with
  | ⟨.arrayIterator iter, _⟩ => some iter
  | _ => none

/-- `Object::as_string_iterator_mut` (read component of the mutable accessor). -/
def Object.as_string_iterator_mut (self : Object) : Option StringIterator :=
  match self.data with
  | ⟨.stringIterator iter, _⟩ => some iter
  | _ => none

/-- `Object::as_regexp_string_iterator_mut` (read component of the mutable accessor). -/
def Object.as_regexp_string_iterator_mut (self : Object) : Option RegExpStringIterator :=
  match self.data with
  | ⟨.regExpStringIterator iter, _⟩ => some iter
  | _ => none

/-- `Object::as_for_in_iterator`. -/
def Object.as_for_in_iterator (self : Object) : Option ForInIterator :=
  match self.data with
  | ⟨.forInIterator iter, _⟩ => some iter
  | _ => none

/-- `Object::as_for_in_iterator_mut` (read component of the mutable accessor). -/
def Object.as_for_in_iterator_mut (self : Object) : Option ForInIterator :=
  match self.data with
  | ⟨.forInIterator iter, _⟩ => some iter
  | _ => none

/-- `Object::is_map`. -/
def Object.is_map (self : Object) : Bool :=
  match self.data with
  | ⟨.map _, _⟩ => true
  | _ => false

/-- `Object::as_map_ref`. -/
def Object.as_map_ref (self : Object) : Option OrderedMap :=
  match self.data with
  | ⟨.map map, _⟩ => some map
  | _ => none

/-- `Object::as_map_mut` (read component of the mutable accessor). -/
def Object.as_map_mut (self : Object) : Option OrderedMap :=
  match self.data with
  | ⟨.map map, _⟩ => some map
  | _ => none

/-- `Object::is_map_iterator`. -/
def Object.is_map_iterator (self : Object) : Bool :=
  match self.data with
  | ⟨.mapIterator _, _⟩ => true
  | _ => false

/-- `Object::as_map_iterator_ref`. -/
def Object.as_map_iterator_ref (self : Object) : Option MapIterator :=
  match self.data with
  | ⟨.mapIterator iter, _⟩ => some iter
  | _ => none

/-- `Object::as_map_iterator_mut` (read component of the mutable accessor). -/
def Object.as_map_iterator_mut (self : Object) : Option MapIterator :=
  match self.data with
  | ⟨.mapIterator iter, _⟩ => some iter
  | _ => none

/-- `Object::is_set`. -/
def Object.is_set (self : Object) : Bool :=
  match self.data with
  | ⟨.set _, _⟩ => true
  | _ => false

/-- `Object::as_set_ref`. -/
def Object.as_set_ref (self : Object) : Option OrderedSet :=
  match self.data with
  | ⟨.set set, _⟩ => some set
  | _ => none

/-- `Object::as_set_mut` (read component of the mutable accessor). -/
def Object.as_set_mut (self : Object) : Option OrderedSet :=
  match self.data with
  | ⟨.set set, _⟩ => some set
  | _ => none

/-- `Object::as_set_iterator_mut` (read component of the mutable accessor). -/
def Object.as_set_iterator_mut (self : Object) : Option SetIterator :=
  match self.data with
  | ⟨.setIterator iter, _⟩ => some iter
  | _ => none

/-- `Object::is_string`. -/
def Object.is_string (self : Object) : Bool :=
  match self.data with
  | ⟨.string _, _⟩ => true
  | _ => false

/-- `Object::as_string` (clones the wrapped `JsString`). -/
def Object.as_string (self : Object) : Option JsString :=
  match self.data with
  | ⟨.string string, _⟩ => some string
  | _ => none

/-- `Object::is_function`. -/
def Object.is_function (self : Object) : Bool :=
  match self.data with
  | ⟨.function _, _⟩ => true
  | _ => false

/-- `Object::as_function`. -/
def Object.as_function (self : Object) : Option Function :=
  match self.data with
  | ⟨.function function, _⟩ => some function
  | _ => none

/-- `Object::as_function_mut` (read component of the mutable accessor). -/
def Object.as_function_mut (self : Object) : Option Function :=
  match self.data with
  | ⟨.function function, _⟩ => some function
  | _ => none

/-- `Object::as_bound_function`. -/
def Object.as_bound_function (self : Object) : Option BoundFunction :=
  match self.data with
  | ⟨.boundFunction bound_function, _⟩ => some bound_function
  | _ => none

/-- `Object::is_symbol`. -/
def Object.is_symbol (self : Object) : Bool :=
  match self.data with
  | ⟨.symbol _, _⟩ => true
  | _ => false

/-- `Object::as_symbol` (clones the wrapped symbol). -/
def Object.as_symbol (self : Object) : Option JsSymbol :=
  match self.data with
  | ⟨.symbol symbol, _⟩ => some symbol
  | _ => none

/-- `Object::is_error`. -/
def Object.is_error (self : Object) : Bool :=
  match self.data with
  | ⟨.error, _⟩ => true
  | _ => false

/-- `Object::as_error`. -/
def Object.as_error (self : Object) : Option Unit :=
  match self.data with
  | ⟨.error, _⟩ => some ()
  | _ => none

/-- `Object::is_boolean`. -/
def Object.is_boolean (self : Object) : Bool :=
  match self.data with
  | ⟨.boolean _, _⟩ => true
  | _ => false

/-- `Object::as_boolean`. -/
def Object.as_boolean (self : Object) : Option Bool :=
  match self.data with
  | ⟨.boolean boolean, _⟩ => some boolean
  | _ => none

/-- `Object::is_number`. -/
def Object.is_number (self : Object) : Bool :=
  match self.data with
  | ⟨.number _, _⟩ => true
  | _ => false

/-- `Object::as_number`. -/
def Object.as_number (self : Object) : Option F64 :=
  match self.data with
  | ⟨.number number, _⟩ => some number
  | _ => none

/-- `Object::is_bigint`. -/
def Object.is_bigint (self : Object) : Bool :=
  match self.data with
  | ⟨.bigInt _, _⟩ => true
  | _ => false

/-- `Object::as_bigint`. -/
def Object.as_bigint (self : Object) : Option JsBigInt :=
  match self.data with
  | ⟨.bigInt bigint, _⟩ => some bigint
  | _ => none

/-- `Object::is_date`. -/
def Object.is_date (self : Object) : Bool :=
  match self.data with
  | ⟨.date _, _⟩ => true
  | _ => false

/-- `Object::as_date`. -/
def Object.as_date (self : Object) : Option Date :=
  match self.data with
  | ⟨.date date, _⟩ => some date
  | _ => none

/-- `Object::is_regexp`. -/
def Object.is_regexp (self : Object) : Bool :=
  match self.data with
  | ⟨.regExp _, _⟩ => true
  | _ => false

/-- `Object::as_regexp`. -/
def Object.as_regexp (self : Object) : Option RegExp :=
  match self.data with
  | ⟨.regExp regexp, _⟩ => some regexp
  | _ => none

/-- `Object::is_typed_array`. -/
def Object.is_typed_array (self : Object) : Bool :=
  match self.data with
  | ⟨.integerIndexed _, _⟩ => true
  | _ => false

/-- `Object::is_arguments`: matches both `Arguments` payload variants. -/
def Object.is_arguments (self : Object) : Bool :=
  match self.data with
  | ⟨.arguments _, _⟩ => true
  | _ => false

/-- `Object::as_mapped_arguments`: only the `Arguments::Mapped` payload. -/
def Object.as_mapped_arguments (self : Object) : Option MappedArguments :=
  match self.data with
  | ⟨.arguments (Arguments.mapped args), _⟩ => some args
  | _ => none

/-- `Object::as_typed_array`. -/
def Object.as_typed_array (self : Object) : Option IntegerIndexed :=
  match self.data with
  | ⟨.integerIndexed integer_indexed_object, _⟩ => some integer_indexed_object
  | _ => none

/-- `Object::as_typed_array_mut` (read component of the mutable accessor). -/
def Object.as_typed_array_mut (self : Object) : Option IntegerIndexed :=
  match self.data with
  | ⟨.integerIndexed integer_indexed_object, _⟩ => some integer_indexed_object
  | _ => none

/-- `Object::is_ordinary`. -/
def Object.is_ordinary (self : Object) : Bool :=
  match self.data with
  | ⟨.ordinary, _⟩ => true
  | _ => false

/-- `Object::set_prototype`: on an extensible object, replace the
prototype and return `true`; on a non-extensible object, leave the state
untouched and return whether the candidate is reference-identical to the
current prototype.  Returns the updated object together with the boolean
result of the Rust method. -/
def Object.set_prototype (self : Object) (prototype : JsPrototype) : Object × Bool :=
  if self.extensible then
    ({ self with prototype := prototype }, true)
  else
    (self, self.prototype == prototype)

/-- `Object::is_native_object`. -/
def Object.is_native_object (self : Object) : Bool :=
  match self.data with
  | ⟨.nativeObject _, _⟩ => true
  | _ => false

/-- `Object::as_native_object`. -/
def Object.as_native_object (self : Object) : Option NativeObjectBox :=
  match self.data with
  | ⟨.nativeObject object, _⟩ => some object
  | _ => none

/-- `Object::is::<T>`: true iff the payload is a native object whose
runtime type tag matches `t` exactly. -/
def Object.is (self : Object) (t : Nat) : Bool :=
  match self.data with
  | ⟨.nativeObject object, _⟩ => object.ty == t
  | _ => false

/-- `Object::downcast_ref::<T>`: the wrapped value when the payload is a
native object of runtime type `t`, otherwise empty. -/
def Object.downcast_ref (self : Object) (t : Nat) : Option Nat :=
  match self.data with
  | ⟨.nativeObject object, _⟩ =>
      if object.ty == t then some object.val else none
  | _ => none

/-- `Object::downcast_mut::<T>` (read component of the mutable accessor). -/
def Object.downcast_mut (self : Object) (t : Nat) : Option Nat :=
  match self.data with
  | ⟨.nativeObject object, _⟩ =>
      if object.ty == t then some object.val else none
  | _ => none

/-- `Object::insert`: delegate to `self.properties.insert`, returning the
updated object and the previously stored descriptor. -/
def Object.insert (self : Object) (key : PropertyKey) (property : PropertyDescriptor) :
    Object × Option PropertyDescriptor :=
  let r := self.properties.insert key property
  ({ self with properties := r.1 }, r.2)

/-- `Object::insert_property`: delegates to `Object::insert`. -/
def Object.insert_property (self : Object) (key : PropertyKey)
    (property : PropertyDescriptor) : Object × Option PropertyDescriptor :=
  self.insert key property

attribute [simp] Object.is_array Object.as_array Object.is_array_iterator
  Object.as_array_iterator Object.is_array_buffer Object.as_array_buffer
  Object.as_array_buffer_mut Object.as_array_iterator_mut Object.as_string_iterator_mut
  Object.as_regexp_string_iterator_mut Object.as_for_in_iterator
  Object.as_for_in_iterator_mut Object.is_map Object.as_map_ref Object.as_map_mut
  Object.is_map_iterator Object.as_map_iterator_ref Object.as_map_iterator_mut
  Object.is_set Object.as_set_ref Object.as_set_mut Object.as_set_iterator_mut
  Object.is_string Object.as_string Object.is_function Object.as_function
  Object.as_function_mut Object.as_bound_function Object.is_symbol Object.as_symbol
  Object.is_error Object.as_error Object.is_boolean Object.as_boolean
  Object.is_number Object.as_number Object.is_bigint Object.as_bigint
  Object.is_date Object.as_date Object.is_regexp Object.as_regexp
  Object.is_typed_array Object.is_arguments Object.as_mapped_arguments
  Object.as_typed_array Object.as_typed_array_mut Object.is_ordinary
  Object.is_native_object Object.as_native_object Object.is Object.downcast_ref
  Object.downcast_mut

attribute [simp] ObjectData.array ObjectData.array_iterator ObjectData.array_buffer
  ObjectData.map ObjectData.map_iterator ObjectData.reg_exp
  ObjectData.reg_exp_string_iterator ObjectData.big_int ObjectData.boolean
  ObjectData.for_in_iterator ObjectData.function ObjectData.bound_function
  ObjectData.set ObjectData.set_iterator ObjectData.string ObjectData.string_iterator
  ObjectData.number ObjectData.symbol ObjectData.error ObjectData.ordinary
  ObjectData.date ObjectData.global ObjectData.arguments ObjectData.native_object
  ObjectData.integer_indexed

/-- Helper: the second component of `insertEntries` is the previous
binding of the key. -/
theorem insertEntries_snd (k : PropertyKey) (v : PropertyDescriptor)
    (l : List (PropertyKey × PropertyDescriptor)) :
    (insertEntries k v l).2 = getEntries k l := by
  induction l with
  | nil => rfl
  | cons e rest ih =>
    by_cases h : e.1 = k <;> simp [insertEntries, getEntries, h, ih]

/-- Helper: after `insertEntries`, the key is bound to the inserted
descriptor. -/
theorem getEntries_insertEntries_self (k : PropertyKey) (v : PropertyDescriptor)
    (l : List (PropertyKey × PropertyDescriptor)) :
    getEntries k (insertEntries k v l).1 = some v := by
  induction l with
  | nil => simp [insertEntries, getEntries]
  | cons e rest ih =>
    by_cases h : e.1 = k <;> simp [insertEntries, getEntries, h, ih]

/-- Helper: the descriptor returned by `insert` is exactly the previous
binding of the key. -/
theorem PropertyMap.insert_snd (m : PropertyMap) (k : PropertyKey)
    (v : PropertyDescriptor) : (m.insert k v).2 = m.get k :=
  insertEntries_snd k v m.entries

/-- Helper: after `insert`, the key is bound to the inserted descriptor. -/
theorem PropertyMap.get_insert_self (m : PropertyMap) (k : PropertyKey)
    (v : PropertyDescriptor) : (m.insert k v).1.get k = some v :=
  getEntries_insertEntries_self k v m.entries

/-- Sample: a non-extensible ordinary object whose prototype is the
object at address 0. -/
def sampleFrozen : Object :=
  { data := ObjectData.ordinary
    properties := PropertyMap.default
    prototype := some 0
    extensible := false }

/-- Sample: an object built by the Unmapped-Arguments factory. -/
def sampleUnmappedArguments : Object :=
  { data := ObjectData.arguments Arguments.unmapped
    properties := PropertyMap.default
    prototype := none
    extensible := true }

/-- C1: every `ObjectData` factory binds exactly the documented operation
table: Array, boxed String, Mapped Arguments and Integer-Indexed get
their respective exotic tables; Function and Bound Function get the
constructor variant of their table iff the constructibility flag is true,
and the non-constructor variant otherwise; Unmapped Arguments and every
remaining kind get the ordinary table. -/
theorem objectData_factories_bind_documented_tables :
    ObjectData.array.internal_methods = ARRAY_EXOTIC_INTERNAL_METHODS ∧
    (∀ s, (ObjectData.string s).internal_methods = STRING_EXOTIC_INTERNAL_METHODS) ∧
    (∀ m, (ObjectData.arguments (Arguments.mapped m)).internal_methods =
      ARGUMENTS_EXOTIC_INTERNAL_METHODS) ∧
    (ObjectData.arguments Arguments.unmapped).internal_methods =
      ORDINARY_INTERNAL_METHODS ∧
    (∀ i, (ObjectData.integer_indexed i).internal_methods =
      INTEGER_INDEXED_EXOTIC_INTERNAL_METHODS) ∧
    (∀ f, (ObjectData.function f).internal_methods =
      if f.is_constructor then CONSTRUCTOR_INTERNAL_METHODS
      else FUNCTION_INTERNAL_METHODS) ∧
    (∀ b c, (ObjectData.bound_function b c).internal_methods =
      if c then BOUND_CONSTRUCTOR_EXOTIC_INTERNAL_METHODS
      else BOUND_FUNCTION_EXOTIC_INTERNAL_METHODS) ∧
    (∀ x, (ObjectData.array_iterator x).internal_methods = ORDINARY_INTERNAL_METHODS) ∧
    (∀ x, (ObjectData.array_buffer x).internal_methods = ORDINARY_INTERNAL_METHODS) ∧
    (∀ x, (ObjectData.map x).internal_methods = ORDINARY_INTERNAL_METHODS) ∧
    (∀ x, (ObjectData.map_iterator x).internal_methods = ORDINARY_INTERNAL_METHODS) ∧
    (∀ x, (ObjectData.reg_exp x).internal_methods = ORDINARY_INTERNAL_METHODS) ∧
    (∀ x, (ObjectData.reg_exp_string_iterator x).internal_methods =
      ORDINARY_INTERNAL_METHODS) ∧
    (∀ x, (ObjectData.big_int x).internal_methods = ORDINARY_INTERNAL_METHODS) ∧
    (∀ x, (ObjectData.boolean x).internal_methods = ORDINARY_INTERNAL_METHODS) ∧
    (∀ x, (ObjectData.for_in_iterator x).internal_methods = ORDINARY_INTERNAL_METHODS) ∧
    (∀ x, (ObjectData.set x).internal_methods = ORDINARY_INTERNAL_METHODS) ∧
    (∀ x, (ObjectData.set_iterator x).internal_methods = ORDINARY_INTERNAL_METHODS) ∧
    (∀ x, (ObjectData.string_iterator x).internal_methods = ORDINARY_INTERNAL_METHODS) ∧
    (∀ x, (ObjectData.number x).internal_methods = ORDINARY_INTERNAL_METHODS) ∧
    (∀ x, (ObjectData.symbol x).internal_methods = ORDINARY_INTERNAL_METHODS) ∧
    ObjectData.error.internal_methods = ORDINARY_INTERNAL_METHODS ∧
    ObjectData.ordinary.internal_methods = ORDINARY_INTERNAL_METHODS ∧
    (∀ x, (ObjectData.date x).internal_methods = ORDINARY_INTERNAL_METHODS) ∧
    ObjectData.global.internal_methods = ORDINARY_INTERNAL_METHODS ∧
    (∀ x, (ObjectData.native_object x).internal_methods = ORDINARY_INTERNAL_METHODS) :=
  ⟨rfl, fun _ => rfl, fun _ => rfl, rfl, fun _ => rfl, fun _ => rfl, fun _ _ => rfl,
   fun _ => rfl, fun _ => rfl, fun _ => rfl, fun _ => rfl, fun _ => rfl, fun _ => rfl,
   fun _ => rfl, fun _ => rfl, fun _ => rfl, fun _ => rfl, fun _ => rfl, fun _ => rfl,
   fun _ => rfl, fun _ => rfl, rfl, rfl, fun _ => rfl, rfl, fun _ => rfl⟩

/-- C2: on a non-extensible object, `set_prototype` succeeds exactly when
the candidate is reference-identical to the current prototype (both none,
or both the same address), and in every case — success or failure — the
whole object state is left unchanged. -/
theorem set_prototype_non_extensible (o : Object) (q : JsPrototype)
    (h : o.extensible = false) :
    ((o.set_prototype q).2 = true ↔ q = o.prototype) ∧
    (o.set_prototype q).1 = o := by
  constructor
  · simp only [Object.set_prototype, h, Bool.false_eq_true, if_false, beq_iff_eq]
    exact eq_comm
  · simp [Object.set_prototype, h]

/-- Witness for `set_prototype_non_extensible` at a concrete frozen
object and a differing candidate prototype. -/
theorem set_prototype_non_extensible_witness :
    ((sampleFrozen.set_prototype (some 1)).2 = true ↔
      (some 1 : JsPrototype) = sampleFrozen.prototype) ∧
    (sampleFrozen.set_prototype (some 1)).1 = sampleFrozen :=
  set_prototype_non_extensible sampleFrozen (some 1) rfl

/-- C3: on an extensible object, `set_prototype` always succeeds and the
read-back prototype is exactly the candidate. -/
theorem set_prototype_extensible (o : Object) (q : JsPrototype)
    (h : o.extensible = true) :
    (o.set_prototype q).2 = true ∧ (o.set_prototype q).1.prototype = q := by
  simp [Object.set_prototype, h]

/-- Witness for `set_prototype_extensible` at the default object and a
concrete candidate prototype. -/
theorem set_prototype_extensible_witness :
    (Object.default.set_prototype (some 7)).2 = true ∧
    (Object.default.set_prototype (some 7)).1.prototype = some 7 :=
  set_prototype_extensible Object.default (some 7) rfl

/-- C4 counterexample: the object constructed through the Arguments
factory with the Unmapped payload satisfies the kind's predicate
`is_arguments`, yet the kind's accessor `as_mapped_arguments` returns
the empty result instead of the payload; reading mapped and unmapped
Arguments as distinct kinds, as the spec's kind table does, the same
object shows the mapped kind's predicate returning true on a non-mapped
object. -/
theorem introspection_unmapped_arguments_counterexample :
    sampleUnmappedArguments.is_arguments = true ∧
    sampleUnmappedArguments.as_mapped_arguments = none :=
  ⟨rfl, rfl⟩

/-- C4 (amended): over the `ObjectKind` variant set — where Arguments is
a single kind covering both payload variants — every predicate returns
true exactly on objects of its kind and every accessor returns the
stored payload exactly on objects of its kind, with the one exception of
`as_mapped_arguments`, which requires the Arguments payload to be the
Mapped variant and is empty on Unmapped-Arguments objects even though
`is_arguments` is true there.  All predicates and accessors are total
functions, so none can panic. -/
theorem introspection_cross_product (o : Object) :
    (o.is_array = true ↔ o.data.kind = ObjectKind.array) ∧
    (o.is_array_iterator = true ↔ ∃ x, o.data.kind = ObjectKind.arrayIterator x) ∧
    (o.is_array_buffer = true ↔ ∃ x, o.data.kind = ObjectKind.arrayBuffer x) ∧
    (o.is_map = true ↔ ∃ x, o.data.kind = ObjectKind.map x) ∧
    (o.is_map_iterator = true ↔ ∃ x, o.data.kind = ObjectKind.mapIterator x) ∧
    (o.is_set = true ↔ ∃ x, o.data.kind = ObjectKind.set x) ∧
    (o.is_string = true ↔ ∃ x, o.data.kind = ObjectKind.string x) ∧
    (o.is_function = true ↔ ∃ x, o.data.kind = ObjectKind.function x) ∧
    (o.is_symbol = true ↔ ∃ x, o.data.kind = ObjectKind.symbol x) ∧
    (o.is_error = true ↔ o.data.kind = ObjectKind.error) ∧
    (o.is_boolean = true ↔ ∃ x, o.data.kind = ObjectKind.boolean x) ∧
    (o.is_number = true ↔ ∃ x, o.data.kind = ObjectKind.number x) ∧
    (o.is_bigint = true ↔ ∃ x, o.data.kind = ObjectKind.bigInt x) ∧
    (o.is_date = true ↔ ∃ x, o.data.kind = ObjectKind.date x) ∧
    (o.is_regexp = true ↔ ∃ x, o.data.kind = ObjectKind.regExp x) ∧
    (o.is_typed_array = true ↔ ∃ x, o.data.kind = ObjectKind.integerIndexed x) ∧
    (o.is_arguments = true ↔ ∃ x, o.data.kind = ObjectKind.arguments x) ∧
    (o.is_ordinary = true ↔ o.data.kind = ObjectKind.ordinary) ∧
    (o.is_native_object = true ↔ ∃ x, o.data.kind = ObjectKind.nativeObject x) ∧
    (∀ x, o.as_array = some x ↔ o.data.kind = ObjectKind.array) ∧
    (∀ x, o.as_array_iterator = some x ↔ o.data.kind = ObjectKind.arrayIterator x) ∧
    (∀ x, o.as_array_iterator_mut = some x ↔ o.data.kind = ObjectKind.arrayIterator x) ∧
    (∀ x, o.as_array_buffer = some x ↔ o.data.kind = ObjectKind.arrayBuffer x) ∧
    (∀ x, o.as_array_buffer_mut = some x ↔ o.data.kind = ObjectKind.arrayBuffer x) ∧
    (∀ x, o.as_string_iterator_mut = some x ↔ o.data.kind = ObjectKind.stringIterator x) ∧
    (∀ x, o.as_regexp_string_iterator_mut = some x ↔
      o.data.kind = ObjectKind.regExpStringIterator x) ∧
    (∀ x, o.as_for_in_iterator = some x ↔ o.data.kind = ObjectKind.forInIterator x) ∧
    (∀ x, o.as_for_in_iterator_mut = some x ↔ o.data.kind = ObjectKind.forInIterator x) ∧
    (∀ x, o.as_map_ref = some x ↔ o.data.kind = ObjectKind.map x) ∧
    (∀ x, o.as_map_mut = some x ↔ o.data.kind = ObjectKind.map x) ∧
    (∀ x, o.as_map_iterator_ref = some x ↔ o.data.kind = ObjectKind.mapIterator x) ∧
    (∀ x, o.as_map_iterator_mut = some x ↔ o.data.kind = ObjectKind.mapIterator x) ∧
    (∀ x, o.as_set_ref = some x ↔ o.data.kind = ObjectKind.set x) ∧
    (∀ x, o.as_set_mut = some x ↔ o.data.kind = ObjectKind.set x) ∧
    (∀ x, o.as_set_iterator_mut = some x ↔ o.data.kind = ObjectKind.setIterator x) ∧
    (∀ x, o.as_string = some x ↔ o.data.kind = ObjectKind.string x) ∧
    (∀ x, o.as_function = some x ↔ o.data.kind = ObjectKind.function x) ∧
    (∀ x, o.as_function_mut = some x ↔ o.data.kind = ObjectKind.function x) ∧
    (∀ x, o.as_bound_function = some x ↔ o.data.kind = ObjectKind.boundFunction x) ∧
    (∀ x, o.as_symbol = some x ↔ o.data.kind = ObjectKind.symbol x) ∧
    (∀ x, o.as_error = some x ↔ o.data.kind = ObjectKind.error) ∧
    (∀ x, o.as_boolean = some x ↔ o.data.kind = ObjectKind.boolean x) ∧
    (∀ x, o.as_number = some x ↔ o.data.kind = ObjectKind.number x) ∧
    (∀ x, o.as_bigint = some x ↔ o.data.kind = ObjectKind.bigInt x) ∧
    (∀ x, o.as_date = some x ↔ o.data.kind = ObjectKind.date x) ∧
    (∀ x, o.as_regexp = some x ↔ o.data.kind = ObjectKind.regExp x) ∧
    (∀ x, o.as_typed_array = some x ↔ o.data.kind = ObjectKind.integerIndexed x) ∧
    (∀ x, o.as_typed_array_mut = some x ↔ o.data.kind = ObjectKind.integerIndexed x) ∧
    (∀ x, o.as_native_object = some x ↔ o.data.kind = ObjectKind.nativeObject x) ∧
    (∀ x, o.as_mapped_arguments = some x ↔
      o.data.kind = ObjectKind.arguments (Arguments.mapped x)) := by
  obtain ⟨⟨k, im⟩, p, pr, e⟩ := o
  cases k
  case arguments a => cases a <;> simp
  all_goals simp

/-- C5: host-object introspection is exact on the runtime type tag: on a
native-object payload `⟨ty, val⟩`, `is ty` holds and `downcast_ref ty`
yields `val`, while any other tag gives false/empty; on an object of any
other kind, `is`, `downcast_ref` and `downcast_mut` give false/empty for
every tag.  All three are total functions, so none can panic. -/
theorem native_object_downcast_exact :
    (∀ (n : NativeObjectBox) props proto ext,
      (Object.mk (ObjectData.native_object n) props proto ext).is n.ty = true ∧
      (Object.mk (ObjectData.native_object n) props proto ext).downcast_ref n.ty =
        some n.val ∧
      ∀ u, u ≠ n.ty →
        (Object.mk (ObjectData.native_object n) props proto ext).is u = false ∧
        (Object.mk (ObjectData.native_object n) props proto ext).downcast_ref u = none ∧
        (Object.mk (ObjectData.native_object n) props proto ext).downcast_mut u = none) ∧
    (∀ (o : Object), o.is_native_object = false → ∀ t,
      o.is t = false ∧ o.downcast_ref t = none ∧ o.downcast_mut t = none) := by
  constructor
  · intro n props proto ext
    refine ⟨by simp, by simp, fun u hu => ?_⟩
    have hne : ¬ n.ty = u := fun hh => hu hh.symm
    simp [hne]
  · intro o ho t
    obtain ⟨⟨k, im⟩, p, pr, e⟩ := o
    cases k <;> simp_all

/-- Witness for `native_object_downcast_exact`: the mismatch branches at
a concrete host payload of type tag 0 holding value 5, probed with tag 1,
and at the default (ordinary, non-host) object probed with tag 0. -/
theorem native_object_downcast_exact_witness :
    ((Object.mk (ObjectData.native_object ⟨0, 5⟩) PropertyMap.default none true).is 1
        = false ∧
      (Object.mk (ObjectData.native_object ⟨0, 5⟩) PropertyMap.default none
        true).downcast_ref 1 = none ∧
      (Object.mk (ObjectData.native_object ⟨0, 5⟩) PropertyMap.default none
        true).downcast_mut 1 = none) ∧
    (Object.default.is 0 = false ∧ Object.default.downcast_ref 0 = none ∧
      Object.default.downcast_mut 0 = none) :=
  ⟨(native_object_downcast_exact.1 ⟨0, 5⟩ PropertyMap.default none true).2.2 1
    (by decide),
   native_object_downcast_exact.2 Object.default rfl 0⟩

/-- C6: on an object with no property stored under `k`, the unconditional
`insert_property k d1` returns the empty result and leaves `k` bound to
`d1`; a subsequent `insert_property k d2` returns the previous descriptor
`d1` and leaves `k` bound to `d2`. -/
theorem insert_property_fresh_then_overwrite (o : Object) (k : PropertyKey)
    (d1 d2 : PropertyDescriptor) (h : o.properties.get k = none) :
    (o.insert_property k d1).2 = none ∧
    (o.insert_property k d1).1.properties.get k = some d1 ∧
    ((o.insert_property k d1).1.insert_property k d2).2 = some d1 ∧
    ((o.insert_property k d1).1.insert_property k d2).1.properties.get k = some d2 := by
  refine ⟨?_, ?_, ?_, ?_⟩
  · simp [Object.insert_property, Object.insert, PropertyMap.insert_snd, h]
  · simp [Object.insert_property, Object.insert, PropertyMap.get_insert_self]
  · simp [Object.insert_property, Object.insert, PropertyMap.insert_snd,
      PropertyMap.get_insert_self]
  · simp [Object.insert_property, Object.insert, PropertyMap.get_insert_self]

/-- Witness for `insert_property_fresh_then_overwrite` at the default
(empty) object, key 3 and descriptors 10 then 11. -/
theorem insert_property_fresh_then_overwrite_witness :
    Object.default.properties.get 3 = none ∧
    ((Object.default.insert_property 3 10).2 = none ∧
      (Object.default.insert_property 3 10).1.properties.get 3 = some 10 ∧
      ((Object.default.insert_property 3 10).1.insert_property 3 11).2 = some 10 ∧
      ((Object.default.insert_property 3 10).1.insert_property 3 11).1.properties.get 3 =
        some 11) :=
  ⟨rfl, insert_property_fresh_then_overwrite Object.default 3 10 11 rfl⟩

/-- C7: the display mapping assigns every kind exactly one stable label;
in particular Array maps to "Array", the Integer-Indexed kind maps to
"TypedArray", and Error maps to "Error".  Totality over the kind set is
witnessed by the exhaustive enumeration below. -/
theorem objectKind_display_labels :
    ObjectKind.array.display = "Array" ∧
    (∀ x, (ObjectKind.arrayIterator x).display = "ArrayIterator") ∧
    (∀ x, (ObjectKind.arrayBuffer x).display = "ArrayBuffer") ∧
    (∀ x, (ObjectKind.map x).display = "Map") ∧
    (∀ x, (ObjectKind.mapIterator x).display = "MapIterator") ∧
    (∀ x, (ObjectKind.regExp x).display = "RegExp") ∧
    (∀ x, (ObjectKind.regExpStringIterator x).display = "RegExpStringIterator") ∧
    (∀ x, (ObjectKind.bigInt x).display = "BigInt") ∧
    (∀ x, (ObjectKind.boolean x).display = "Boolean") ∧
    (∀ x, (ObjectKind.forInIterator x).display = "ForInIterator") ∧
    (∀ x, (ObjectKind.function x).display = "Function") ∧
    (∀ x, (ObjectKind.boundFunction x).display = "BoundFunction") ∧
    (∀ x, (ObjectKind.set x).display = "Set") ∧
    (∀ x, (ObjectKind.setIterator x).display = "SetIterator") ∧
    (∀ x, (ObjectKind.string x).display = "String") ∧
    (∀ x, (ObjectKind.stringIterator x).display = "StringIterator") ∧
    (∀ x, (ObjectKind.number x).display = "Number") ∧
    (∀ x, (ObjectKind.symbol x).display = "Symbol") ∧
    ObjectKind.error.display = "Error" ∧
    ObjectKind.ordinary.display = "Ordinary" ∧
    (∀ x, (ObjectKind.date x).display = "Date") ∧
    ObjectKind.global.display = "Global" ∧
    (∀ x, (ObjectKind.arguments x).display = "Arguments") ∧
    (∀ x, (ObjectKind.nativeObject x).display = "NativeObject") ∧
    (∀ x, (ObjectKind.integerIndexed x).display = "TypedArray") :=
  ⟨rfl, fun _ => rfl, fun _ => rfl, fun _ => rfl, fun _ => rfl, fun _ => rfl,
   fun _ => rfl, fun _ => rfl, fun _ => rfl, fun _ => rfl, fun _ => rfl, fun _ => rfl,
   fun _ => rfl, fun _ => rfl, fun _ => rfl, fun _ => rfl, fun _ => rfl, fun _ => rfl,
   rfl, rfl, fun _ => rfl, rfl, fun _ => rfl, fun _ => rfl, fun _ => rfl⟩

/-- C8: the default-constructed Object Record is extensible, has kind
Ordinary with the ordinary table, no prototype, and an empty property
map. -/
theorem default_object_shape :
    Object.default.extensible = true ∧
    Object.default.data.kind = ObjectKind.ordinary ∧
    Object.default.data.internal_methods = ORDINARY_INTERNAL_METHODS ∧
    Object.default.prototype = none ∧
    Object.default.properties.entries = [] :=
  ⟨rfl, rfl, rfl, rfl, rfl⟩

/-- C9: at this module's layer, the unconditional `insert_property` and
the helper `insert` are the same operation on every state and input — the
former delegates to the latter with no extra checks. -/
theorem insert_property_eq_insert (o : Object) (k : PropertyKey)
    (p : PropertyDescriptor) : o.insert_property k p = o.insert k p := rfl

/-- C10: an object constructed with the Unmapped-Arguments payload
satisfies `is_arguments` (the predicate does not distinguish the two
Arguments variants — it also holds for Mapped) while
`as_mapped_arguments` is empty; `as_mapped_arguments` returns a payload
exactly when the object's Arguments payload is the Mapped variant. -/
theorem arguments_predicate_and_mapped_accessor :
    (∀ props proto ext,
      (Object.mk (ObjectData.arguments Arguments.unmapped) props proto
        ext).is_arguments = true ∧
      (Object.mk (ObjectData.arguments Arguments.unmapped) props proto
        ext).as_mapped_arguments = none) ∧
    (∀ m props proto ext,
      (Object.mk (ObjectData.arguments (Arguments.mapped m)) props proto
        ext).is_arguments = true) ∧
    (∀ (o : Object) (m : MappedArguments),
      o.as_mapped_arguments = some m ↔
        o.data.kind = ObjectKind.arguments (Arguments.mapped m)) := by
  refine ⟨fun props proto ext => ⟨by simp, by simp⟩,
    fun m props proto ext => by simp, fun o m => ?_⟩
  obtain ⟨⟨k, im⟩, p, pr, e⟩ := o
  cases k
  case arguments a => cases a <;> simp
  all_goals simp

end Boa
